import Mathlib

/-!
Shallow embedding of `hoyo-checkin-rs` (`src/main.rs`), a daily check-in
automation tool for the Hoyolab portal, together with proofs about its
check-in orchestration logic.

HTTP transport is modelled as an environment: each call to the status
endpoint or the sign endpoint either fails with a transport/decoding error
(`Except.error` carrying the error text) or yields a decoded `SignResponse`.
The environment hands out the response to the n-th status call and the n-th
sign call of a `process_game` run, so request counts are part of the model.
-/

namespace HoyoCheckin

/-- Mirrors `struct SignData { is_sign: Option<bool> }`. -/
structure SignData where
  is_sign : Option Bool
deriving Repr, DecidableEq

/-- Mirrors `struct SignResponse { retcode: Option<i32>, message: Option<String>, data: Option<SignData> }`. -/
structure SignResponse where
  retcode : Option Int
  message : Option String
  data : Option SignData
deriving Repr, DecidableEq

/-- Mirrors `struct Game` from `src/main.rs`. -/
structure Game where
  name : String
  act_id : String
  url_get_status : String
  url_sign : String
  rpc_sign_game : Option String
deriving Repr, DecidableEq

/-- First `GAMES` registry entry. -/
def genshinImpact : Game :=
  ⟨"Genshin Impact", "e202102251931481",
   "https://sg-hk4e-api.hoyolab.com/event/sol/info",
   "https://sg-hk4e-api.hoyolab.com/event/sol/sign", none⟩

/-- Second `GAMES` registry entry. -/
def honkaiStarRail : Game :=
  ⟨"Honkai Star Rail", "e202303301540311",
   "https://sg-public-api.hoyolab.com/event/luna/os/info",
   "https://sg-public-api.hoyolab.com/event/luna/os/sign", none⟩

/-- Third `GAMES` registry entry. -/
def zenlessZoneZero : Game :=
  ⟨"Zenless Zone Zero", "e202406031448091",
   "https://sg-public-api.hoyolab.com/event/luna/zzz/os/info",
   "https://sg-public-api.hoyolab.com/event/luna/zzz/os/sign", some "zzz"⟩

/-- Mirrors the `GAMES` registry constant (three entries, registry order). -/
def GAMES : List Game := [genshinImpact, honkaiStarRail, zenlessZoneZero]

/-- Mirrors `struct Account { name, cookies }`; the cookie `HashMap` is
modelled as an association list (iteration order made explicit). -/
structure Account where
  name : String
  cookies : List (String × String)
deriving Repr, DecidableEq

/-- Outcome of one HTTP call after JSON decoding: either a transport or
decoding error (the `map_err(|e| e.to_string())` text) or a response. -/
abbrev HttpResult := Except String SignResponse

/-- The remote responses available to one `process_game` run:
`status_responses n` is what the (n+1)-th status-check call returns,
`sign_responses n` what the (n+1)-th claim call returns. -/
structure Env where
  status_responses : Nat → HttpResult
  sign_responses : Nat → HttpResult

/-- Mirrors `HoyolabCheckin::get_status` from the decoded response onward:
`retcode.unwrap_or(0)`; nonzero is an error carrying `message` or the
synthesized text; otherwise `data.map_or(false, |d| d.is_sign.unwrap_or(false))`. -/
def get_status (r : HttpResult) : Except String Bool :=
  match r with
  | .error e => .error e
  | .ok response =>
    let return_code := response.retcode.getD 0
    if return_code ≠ 0 then
      .error (response.message.getD s!"Return code is {return_code}")
    else
      .ok (response.data.elim false (fun data => data.is_sign.getD false))

/-- Mirrors `HoyolabCheckin::sign` from the decoded response onward:
`retcode.unwrap_or(0)`; `-5003` is accepted as success; any other nonzero
code is an error carrying `message` or the synthesized text. (The JSON
serialization of `SignRequest` cannot fail for any `act_id` string, so its
`map_err` branch is unreachable and not modelled.) -/
def sign (r : HttpResult) : Except String Unit :=
  match r with
  | .error e => .error e
  | .ok response =>
    let return_code := response.retcode.getD 0
    if return_code = -5003 then
      .ok ()
    else if return_code ≠ 0 then
      .error (response.message.getD s!"Return code is {return_code}")
    else
      .ok ()

/-- Result of one `process_game` call: the returned boolean, the lines it
printed, and how many status-check and claim requests it issued. -/
structure GameRun where
  result : Bool
  output : List String
  status_calls : Nat
  sign_calls : Nat
deriving Repr, DecidableEq

/-- Mirrors `HoyolabCheckin::process_game`. Note that the `Ok(true)`
(already signed) arm of the Rust `match` only prints and then falls through
to the final `false` of the function body: it does NOT return `true`. -/
def process_game (accountName gameName : String) (env : Env) : GameRun :=
  match get_status (env.status_responses 0) with
  | .ok false =>
    match sign (env.sign_responses 0) with
    | .error e =>
      ⟨false, [s!"Failed to sign in for {accountName} on {gameName}: {e}"], 1, 1⟩
    | .ok _ =>
      match get_status (env.status_responses 1) with
      | .ok true =>
        ⟨true, [s!"Daily check-in successful for {accountName} on {gameName}!"], 2, 1⟩
      | _ =>
        ⟨false, [s!"ERROR: Unable to claim check-in rewards for {accountName} on {gameName}"], 2, 1⟩
  | .ok true =>
    ⟨false, [s!"Daily check-in already done for {accountName} on {gameName}!"], 1, 0⟩
  | .error e =>
    ⟨false, [s!"Failed check-in for {accountName} on {gameName}: {e}"], 1, 0⟩

/-- A char is acceptable inside an HTTP header value per the check that
`HeaderValue::from_str` performs: visible chars and above, or horizontal tab.
Stated on `Char` code points: every code point at or above 128 encodes to
UTF-8 bytes in 128..=255, all of which the byte-level check accepts, so the
string is rejected exactly when some char is an ASCII control char other
than tab, or DEL. -/
def validHeaderChar (c : Char) : Bool :=
  c.toNat = 9 || (32 ≤ c.toNat && c.toNat ≠ 127)

/-- Whether `HeaderValue::from_str` succeeds on `s`: every char is valid. -/
def isValidHeaderValue (s : String) : Bool :=
  s.data.all validHeaderChar

/-- The cookie header string built by `build_headers`:
`cookies.iter().map(|(k, v)| format!("{}={}", k, v)).collect::<Vec<_>>().join("; ")`. -/
def cookieHeaderValue (cookies : List (String × String)) : String :=
  String.intercalate "; " (cookies.map (fun kv => kv.1 ++ "=" ++ kv.2))

/-- Mirrors `HoyolabCheckin::build_headers`. The static header values are
all valid, so the only fallible constructions are the two
`HeaderValue::from_str(..).expect(..)` calls, for the `rpc_sign_game`
value of the game and for the serialized cookie string; `none` models
the panic raised by `expect` when the value contains an invalid byte.
(`HeaderMap::insert` with these pairwise distinct names is a plain append.) -/
def build_headers (cookies : List (String × String)) (game : Game) :
    Option (List (String × String)) :=
  let base : List (String × String) :=
    [("Accept", "application/json, text/plain, */*"),
     ("Accept-Language", "en-US,en;q=0.5"),
     ("Origin", "https://act.hoyolab.com"),
     ("Referer", "https://act.hoyolab.com"),
     ("Content-Type", "application/json;charset=utf-8"),
     ("User-Agent", "Mozilla/5.0 (Windows NT 10.0; Win64; x64) AppleWebKit/537.36 (KHTML, like Gecko) Chrome/116.0.0.0 Safari/537.36"),
     ("x-rpc-app_version", "2.34.1"),
     ("x-rpc-client_type", "4")]
  match
    (match game.rpc_sign_game with
     | some v =>
       if isValidHeaderValue v then some (base ++ [("x-rpc-signgame", v)]) else none
     | none => some base)
  with
  | none => none
  | some hs =>
    let cookieValue := cookieHeaderValue cookies
    if isValidHeaderValue cookieValue then some (hs ++ [("Cookie", cookieValue)])
    else none

/-- Version of `process_game` including the header-building step that every
request performs first. `build_headers` is deterministic in the account and the
game, so it panics on the very first status request iff it panics at all;
`none` models that panic escaping `process_game`. -/
def process_game_checked (account : Account) (game : Game) (env : Env) :
    Option GameRun :=
  match build_headers account.cookies game with
  | none => none
  | some _ => some (process_game account.name game.name env)

/-- One game entry as seen by a `process` loop iteration: the display name
of the game together with the responses the remote service gives this pair. -/
abbrev GameWorld := String × Env

/-- Mirrors `HoyolabCheckin::process`: `success` starts `true` and is set to
`false` whenever `process_game` returns `false`; every game is processed.
The printed lines are accumulated in order. -/
def process (accountName : String) (games : List GameWorld) : Bool × List String :=
  games.foldl
    (fun acc g =>
      ((if (process_game accountName g.1 g.2).result then acc.1 else false),
       acc.2 ++ (process_game accountName g.1 g.2).output))
    (true, [])

/-- One account as seen by the `main` loop: its display name together with
its game list and their responses. -/
abbrev AccountWorld := String × List GameWorld

/-- Mirrors the account loop of `main`: `success` starts `true` and is set
to `false` whenever `process` returns `false` for an account; every account
is processed. -/
def processAll (accounts : List AccountWorld) : Bool × List String :=
  accounts.foldl
    (fun acc a =>
      ((if (process a.1 a.2).1 then acc.1 else false), acc.2 ++ (process a.1 a.2).2))
    (true, [])

/-- Mirrors the tail of `main`: after all accounts are processed, when a
health-check URL is configured one GET is issued, to `{url}/fail` when the
run failed and to the URL itself otherwise, and its outcome is discarded
(`let _ = client.get(&url).send();`). Returns the overall success flag, the
printed lines, and the list of health-check GET targets issued. `hcSend`
models the transport outcome of that GET. -/
def main_run (accounts : List AccountWorld) (healthcheck : Option String)
    (hcSend : String → Except String Unit) : Bool × List String × List String :=
  let p := processAll accounts
  let requests :=
    match healthcheck with
    | some hc =>
      let url := if !p.1 then s!"{hc}/fail" else hc
      let _ := hcSend url
      [url]
    | none => []
  (p.1, p.2, requests)

/-! Concrete service responses and environments used to instantiate the
theorems below, matching the example scenarios of the spec. -/

/-- Response `{"retcode":0,"data":{"is_sign":false}}`. -/
def respNotSigned : SignResponse := ⟨some 0, none, some ⟨some false⟩⟩

/-- Response `{"retcode":0,"data":{"is_sign":true}}`. -/
def respSigned : SignResponse := ⟨some 0, none, some ⟨some true⟩⟩

/-- Response `{"retcode":0}`. -/
def respOk : SignResponse := ⟨some 0, none, none⟩

/-- Response `{"retcode":-5003,"message":"already signed"}`. -/
def respSentinel : SignResponse := ⟨some (-5003), some "already signed", none⟩

/-- First status check: not signed; after the claim: signed. Claims succeed. -/
def envHappy : Env :=
  ⟨fun n => if n = 0 then .ok respNotSigned else .ok respSigned, fun _ => .ok respOk⟩

/-- Every status check reports already signed. -/
def envAlready : Env := ⟨fun _ => .ok respSigned, fun _ => .ok respOk⟩

/-- Status checks as in `envHappy`, but the claim answers with the
`-5003` sentinel. -/
def envSentinel : Env :=
  ⟨fun n => if n = 0 then .ok respNotSigned else .ok respSigned, fun _ => .ok respSentinel⟩

/-- Every status check reports not signed, claims succeed: the claim
"succeeds" but reverification never sees the reward. -/
def envReverifyFail : Env := ⟨fun _ => .ok respNotSigned, fun _ => .ok respOk⟩

/-- A health-check transport that succeeds. -/
def hcOk : String → Except String Unit := fun _ => .ok ()

/-- A health-check transport that fails. -/
def hcDown : String → Except String Unit := fun _ => .error "connection refused"

/-! ### Helper lemmas -/

/-- Every `process_game` run prints exactly one console line. -/
theorem process_game_output_length (accountName gameName : String) (env : Env) :
    (process_game accountName gameName env).output.length = 1 := by
  unfold process_game
  rcases get_status (env.status_responses 0) with e | b
  · rfl
  · cases b
    · rcases sign (env.sign_responses 0) with e | u
      · rfl
      · rcases get_status (env.status_responses 1) with e | b2
        · rfl
        · cases b2 <;> rfl
    · rfl

/-- The `process` loop with a generalized accumulator: the flag is the
conjunction of the incoming flag with all per-game results, and the output
lines accumulate in game order. -/
theorem process_foldl (accountName : String) (games : List GameWorld)
    (b : Bool) (s : List String) :
    games.foldl
      (fun acc g =>
        ((if (process_game accountName g.1 g.2).result then acc.1 else false),
         acc.2 ++ (process_game accountName g.1 g.2).output))
      (b, s)
      = (b && games.all (fun g => (process_game accountName g.1 g.2).result),
         s ++ (games.map (fun g => (process_game accountName g.1 g.2).output)).flatten) := by
  induction games generalizing b s with
  | nil => simp
  | cons g gs ih =>
    simp only [List.foldl_cons, List.all_cons, List.map_cons, List.flatten_cons, ih]
    cases (process_game accountName g.1 g.2).result <;>
      simp [List.append_assoc, Bool.and_assoc]

/-- Closed form of `process`: the per-account flag is the conjunction of the
per-game results, and the output is the per-game outputs in game order. -/
theorem process_spec (accountName : String) (games : List GameWorld) :
    process accountName games
      = (games.all (fun g => (process_game accountName g.1 g.2).result),
         (games.map (fun g => (process_game accountName g.1 g.2).output)).flatten) := by
  unfold process
  rw [process_foldl]
  simp

/-- The account loop with a generalized accumulator. -/
theorem processAll_foldl (accounts : List AccountWorld) (b : Bool) (s : List String) :
    accounts.foldl
      (fun acc a =>
        ((if (process a.1 a.2).1 then acc.1 else false), acc.2 ++ (process a.1 a.2).2))
      (b, s)
      = (b && accounts.all (fun a => (process a.1 a.2).1),
         s ++ (accounts.map (fun a => (process a.1 a.2).2)).flatten) := by
  induction accounts generalizing b s with
  | nil => simp
  | cons a as ih =>
    simp only [List.foldl_cons, List.all_cons, List.map_cons, List.flatten_cons, ih]
    cases (process a.1 a.2).1 <;> simp [List.append_assoc, Bool.and_assoc]

/-- Closed form of the account loop of `main`. -/
theorem processAll_spec (accounts : List AccountWorld) :
    processAll accounts
      = (accounts.all (fun a => (process a.1 a.2).1),
         (accounts.map (fun a => (process a.1 a.2).2)).flatten) := by
  unfold processAll
  rw [processAll_foldl]
  simp

/-- Summing the constant 1 over a list counts its elements. -/
theorem sum_map_one {α : Type} (l : List α) : (l.map (fun _ => (1 : Nat))).sum = l.length := by
  induction l with
  | nil => rfl
  | cons x xs ih => simp [ih, Nat.add_comm]

/-- Each `process` run prints one line per game, so every game of the list
is attempted. -/
theorem process_output_length (accountName : String) (games : List GameWorld) :
    (process accountName games).2.length = games.length := by
  rw [process_spec]
  induction games with
  | nil => rfl
  | cons g gs ih =>
    simp only [List.map_cons, List.flatten_cons, List.length_append, ih,
      process_game_output_length, List.length_cons]
    omega

/-- The orchestrator prints one line per account×game pair, so every pair
is attempted. -/
theorem processAll_output_length (accounts : List AccountWorld) :
    (processAll accounts).2.length = (accounts.map (fun a => a.2.length)).sum := by
  rw [processAll_spec]
  induction accounts with
  | nil => rfl
  | cons a as ih =>
    simp only [List.map_cons, List.flatten_cons, List.length_append, ih,
      process_output_length, List.sum_cons]

/-! ### Claim theorems -/

/-- C1: the code evaluated at the failing input. When the first
status-check reports that the account is already signed, `process_game`
prints the "Daily check-in already done" line and never invokes the claim
call (`sign_calls = 0`), but it returns `false`, not `true` as the claim
states: in the Rust source the `Ok(true)` arm of the `match` only prints
and then falls through to the trailing `false` of the function, while the printed
message and the other success path (`return true`) show success was the
intent. -/
theorem C1_already_signed_evaluation :
    process_game "A" "Genshin Impact" envAlready =
      ⟨false, ["Daily check-in already done for A on Genshin Impact!"], 1, 0⟩ := by
  rfl

/-- C2: if the first status-check reports not signed, the claim succeeds,
and the re-issued status-check reports signed, then `process_game` returns
`true`, having issued exactly one claim request and exactly two
status-check requests. -/
theorem C2_fresh_signin (accountName gameName : String) (env : Env)
    (hfirst : get_status (env.status_responses 0) = .ok false)
    (hclaim : sign (env.sign_responses 0) = .ok ())
    (hsecond : get_status (env.status_responses 1) = .ok true) :
    (process_game accountName gameName env).result = true ∧
    (process_game accountName gameName env).sign_calls = 1 ∧
    (process_game accountName gameName env).status_calls = 2 := by
  simp [process_game, hfirst, hclaim, hsecond]

/-- Witness for C2 on the happy-path scenario of the spec. -/
theorem C2_fresh_signin_witness :
    (process_game "A" "Genshin Impact" envHappy).result = true ∧
    (process_game "A" "Genshin Impact" envHappy).sign_calls = 1 ∧
    (process_game "A" "Genshin Impact" envHappy).status_calls = 2 :=
  C2_fresh_signin "A" "Genshin Impact" envHappy rfl rfl rfl

/-- C3: a claim response carrying retcode `-5003` makes `sign` return
success whatever the message and data, and `process_game` then proceeds to
the re-verification status-check (two status calls) instead of reporting a
failed sign-in. -/
theorem C3_sentinel_claim_success (response : SignResponse)
    (accountName gameName : String) (env : Env)
    (hretcode : response.retcode = some (-5003))
    (hfirst : get_status (env.status_responses 0) = .ok false)
    (hclaim : env.sign_responses 0 = .ok response) :
    sign (.ok response) = .ok () ∧
    (process_game accountName gameName env).status_calls = 2 ∧
    (process_game accountName gameName env).sign_calls = 1 := by
  have hsign : sign (.ok response) = .ok () := by simp [sign, hretcode]
  refine ⟨hsign, ?_⟩
  rcases hsecond : get_status (env.status_responses 1) with e | b
  · simp [process_game, hfirst, hclaim, hsign, hsecond]
  · cases b <;> simp [process_game, hfirst, hclaim, hsign, hsecond]

/-- Witness for C3 on the sentinel scenario of the spec. -/
theorem C3_sentinel_claim_success_witness :
    sign (.ok respSentinel) = .ok () ∧
    (process_game "A" "Genshin Impact" envSentinel).status_calls = 2 ∧
    (process_game "A" "Genshin Impact" envSentinel).sign_calls = 1 :=
  C3_sentinel_claim_success respSentinel "A" "Genshin Impact" envSentinel rfl rfl rfl

/-- C4: if the claim call succeeds but the re-verification status-check
does not report signed (it reports not signed or errors), `process_game`
prints the "ERROR: Unable to claim check-in rewards" line and returns
`false`, with no transport error having occurred on the claim. -/
theorem C4_reverify_failure (accountName gameName : String) (env : Env)
    (hfirst : get_status (env.status_responses 0) = .ok false)
    (hclaim : sign (env.sign_responses 0) = .ok ())
    (hsecond : get_status (env.status_responses 1) ≠ .ok true) :
    process_game accountName gameName env =
      ⟨false, [s!"ERROR: Unable to claim check-in rewards for {accountName} on {gameName}"],
       2, 1⟩ := by
  rcases hre : get_status (env.status_responses 1) with e | b
  · simp [process_game, hfirst, hclaim, hre]
  · cases b
    · simp [process_game, hfirst, hclaim, hre]
    · exact absurd hre hsecond

/-- Witness for C4: claim succeeds but the reward never shows up as signed. -/
theorem C4_reverify_failure_witness :
    process_game "A" "Genshin Impact" envReverifyFail =
      ⟨false, ["ERROR: Unable to claim check-in rewards for A on Genshin Impact"], 2, 1⟩ :=
  C4_reverify_failure "A" "Genshin Impact" envReverifyFail rfl rfl
    (fun h => absurd (Except.ok.inj h) (by decide))

/-- C5: the overall run result is the conjunction of all per-account,
per-game runner results — it is `false` iff at least one account×game pair
returns `false` — and every pair is attempted (one printed line per pair,
in nested config/registry order), with no short-circuiting. -/
theorem C5_aggregation (accounts : List AccountWorld) :
    ((processAll accounts).1 = false ↔
       ∃ a ∈ accounts, ∃ g ∈ a.2, (process_game a.1 g.1 g.2).result = false) ∧
    (processAll accounts).2.length = (accounts.map (fun a => a.2.length)).sum ∧
    (processAll accounts).2 =
      (accounts.map (fun a =>
        (a.2.map (fun g => (process_game a.1 g.1 g.2).output)).flatten)).flatten := by
  refine ⟨?_, processAll_output_length accounts, ?_⟩
  · rw [processAll_spec]
    simp [process_spec, List.all_eq_false]
  · rw [processAll_spec]
    simp [process_spec]

/-- C6: the outcome of the run never depends on the health-check transport;
when a health-check URL is configured exactly one GET target is produced —
the base URL on overall success, `{url}/fail` on failure — and none is
produced when no URL is configured. -/
theorem C6_healthcheck (accounts : List AccountWorld) (healthcheck : Option String)
    (send1 send2 : String → Except String Unit) :
    main_run accounts healthcheck send1 = main_run accounts healthcheck send2 ∧
    (∀ url, healthcheck = some url →
       (main_run accounts healthcheck send1).2.2 =
         [if (processAll accounts).1 then url else s!"{url}/fail"]) ∧
    (healthcheck = none → (main_run accounts healthcheck send1).2.2 = []) := by
  refine ⟨rfl, ?_, ?_⟩
  · intro url h
    subst h
    simp only [main_run]
    cases hp : (processAll accounts).1 <;> simp [hp]
  · intro h
    subst h
    rfl

/-- Witness for C6 with a configured health-check URL on an empty (hence
successful) run: one GET, to the base URL. -/
theorem C6_healthcheck_witness :
    (main_run [] (some "https://hc.example") hcOk).2.2 = ["https://hc.example"] :=
  (C6_healthcheck [] (some "https://hc.example") hcOk hcDown).2.1 "https://hc.example" rfl

/-- C7: both decoders default a missing retcode to 0 and hence succeed,
and the status decoder yields is-signed `false` whenever the data field or
its `is_sign` sub-field is absent (for any retcode that is absent or 0). -/
theorem C7_decoder_defaults :
    (∀ (m : Option String) (d : Option SignData),
       sign (.ok ⟨none, m, d⟩) = .ok () ∧
       ∃ b, get_status (.ok ⟨none, m, d⟩) = .ok b) ∧
    (∀ (rc : Option Int) (m : Option String), rc = none ∨ rc = some 0 →
       get_status (.ok ⟨rc, m, none⟩) = .ok false ∧
       get_status (.ok ⟨rc, m, some ⟨none⟩⟩) = .ok false) := by
  refine ⟨fun m d => ⟨rfl, ⟨_, rfl⟩⟩, fun rc m h => ?_⟩
  rcases h with h | h <;> subst h <;> exact ⟨rfl, rfl⟩

/-- Witness for C7: a response with every field absent decodes to success
and "not signed". -/
theorem C7_decoder_defaults_witness :
    get_status (.ok ⟨none, none, none⟩) = .ok false ∧
    sign (.ok ⟨none, none, none⟩) = .ok () :=
  ⟨(C7_decoder_defaults.2 none none (Or.inl rfl)).1,
   (C7_decoder_defaults.1 none none).1⟩

/-- C8: on a nonzero, non-sentinel return code both decoders fail with
exactly the message of the response when present, else the synthesized
"Return code is N" text. -/
theorem C8_error_text (rc : Int) (m : Option String) (d : Option SignData)
    (hnz : rc ≠ 0) (hsentinel : rc ≠ -5003) :
    get_status (.ok ⟨some rc, m, d⟩) = .error (m.getD s!"Return code is {rc}") ∧
    sign (.ok ⟨some rc, m, d⟩) = .error (m.getD s!"Return code is {rc}") := by
  constructor
  · simp [get_status, hnz]
  · simp [sign, hnz, hsentinel]

/-- Witness for C8 on the invalid-cookie scenario of the spec. -/
theorem C8_error_text_witness :
    get_status (.ok ⟨some 10001, some "Invalid cookie", none⟩) = .error "Invalid cookie" ∧
    sign (.ok ⟨some 10001, some "Invalid cookie", none⟩) = .error "Invalid cookie" :=
  C8_error_text 10001 (some "Invalid cookie") none (by decide) (by decide)

/-- C10: the `-5003` sentinel is honored only by `sign`: `get_status`
treats a `-5003` retcode as an error carrying the message or the
synthesized text, while `sign` treats it as success. -/
theorem C10_sentinel_sign_only (m : Option String) (d : Option SignData) :
    get_status (.ok ⟨some (-5003), m, d⟩) = .error (m.getD "Return code is -5003") ∧
    sign (.ok ⟨some (-5003), m, d⟩) = .ok () := by
  exact ⟨rfl, rfl⟩

/-- C9 counterexample: a cookie value containing a newline is rejected by
`HeaderValue::from_str`, so `build_headers` hits its
`.expect("Failed to build cookie header")` and the panic escapes
`process_game` (modelled as `none`): not every input is converted into a
boolean plus one console line. -/
theorem C9_cookie_panic_counterexample :
    process_game_checked ⟨"A", [("token", "bad\nvalue")]⟩ genshinImpact envAlready = none := by
  decide

/-- C9 as amended: whenever the serialized cookie header of the account and
the optional sign-header value of the game are valid HTTP header values, no panic
escapes the runner: `process_game_checked` returns a boolean outcome with
exactly one console line. -/
theorem C9_no_panic_on_valid_headers (account : Account) (game : Game) (env : Env)
    (hcookie : isValidHeaderValue (cookieHeaderValue account.cookies) = true)
    (hsigngame : ∀ v, game.rpc_sign_game = some v → isValidHeaderValue v = true) :
    process_game_checked account game env =
      some (process_game account.name game.name env) ∧
    (process_game account.name game.name env).output.length = 1 := by
  constructor
  · unfold process_game_checked build_headers
    rcases hg : game.rpc_sign_game with _ | v
    · simp [hg, hcookie]
    · simp [hg, hsigngame v hg, hcookie]
  · exact process_game_output_length account.name game.name env

/-- Witness for the amended C9, on the one registry game that carries a
sign-header value. -/
theorem C9_no_panic_witness :
    process_game_checked ⟨"A", [("ltoken", "abc123")]⟩ zenlessZoneZero envAlready =
      some (process_game "A" "Zenless Zone Zero" envAlready) ∧
    (process_game "A" "Zenless Zone Zero" envAlready).output.length = 1 :=
  C9_no_panic_on_valid_headers ⟨"A", [("ltoken", "abc123")]⟩ zenlessZoneZero envAlready
    (by decide) (fun v hv => by injection hv with h; subst h; decide)

end HoyoCheckin
